import Mathlib

/-!
Shallow embedding of the order-customization webhook queue.

The embedding follows the repository sources:
* the SQLite order store (`database.js` / the combined `server.js` variant):
  `addOrder`, `getPendingOrders`, `updateOrderStatus`;
* the reconciliation worker (`worker.js` and the identical worker section of
  the combined server): `findShipStationOrder`, `updateOrderDetails`,
  `getTagId`, `processOrder`, `processPendingOrders`;
* the pure parcel-selection helpers of the combined server:
  `isInternational`, `getWeightInKg`, `selectPackageByWeight`.

The store is a list of rows; SQL timestamps are naturals supplied as a `now`
argument; remote ShipStation calls are an oracle environment `Env` recording,
for each of the five REST calls one processing attempt can make, whether the
call returns a value or raises an exception with a message.
-/

namespace WebhookQueue

/-- One row of the `orders` table (schema in `createTables`). -/
structure OrderRecord where
  id : Nat
  shopify_order_id : Nat
  order_number : String
  formatted_note : String
  tag_type : String
  status : String
  shipstation_order_id : Option Nat
  created_at : Nat
  updated_at : Nat
  last_check_at : Option Nat
  attempts : Nat
  error_message : Option String
  deriving Repr, DecidableEq

/-- Fresh row produced by the INSERT branch of `addOrder`: status starts at
the column default "pending", attempts at 0, nullable columns at NULL. -/
def newRecord (nextId now sid : Nat) (onum note tag : String) : OrderRecord :=
  { id := nextId
    shopify_order_id := sid
    order_number := onum
    formatted_note := note
    tag_type := tag
    status := "pending"
    shipstation_order_id := none
    created_at := now
    updated_at := now
    last_check_at := none
    attempts := 0
    error_message := none }

/-- Embedding of `addOrder`: INSERT ... ON CONFLICT(shopify_order_id) DO
UPDATE SET formatted_note, tag_type, updated_at. -/
def addOrder (db : List OrderRecord) (nextId now sid : Nat)
    (onum note tag : String) : List OrderRecord :=
  if db.any (fun r => r.shopify_order_id == sid) then
    db.map (fun r =>
      if r.shopify_order_id == sid then
        { r with formatted_note := note, tag_type := tag, updated_at := now }
      else r)
  else
    db ++ [newRecord nextId now sid onum note tag]

/-- Comparison used by ORDER BY created_at ASC. -/
def createdLe (a b : OrderRecord) : Prop := a.created_at ≤ b.created_at

instance : DecidableRel createdLe := fun a b => Nat.decLe a.created_at b.created_at

instance : IsTotal OrderRecord createdLe := ⟨fun a b => Nat.le_total a.created_at b.created_at⟩

instance : IsTrans OrderRecord createdLe :=
  ⟨fun _ _ _ hab hbc => Nat.le_trans hab hbc⟩

/-- Embedding of `getPendingOrders`: SELECT * WHERE status = "pending"
ORDER BY created_at ASC LIMIT ?. -/
def getPendingOrders (db : List OrderRecord) (limit : Nat) : List OrderRecord :=
  (List.insertionSort createdLe (db.filter (fun r => r.status == "pending"))).take limit

/-- SQL COALESCE on the nullable shipstation_order_id parameter. -/
def coalesce (x y : Option Nat) : Option Nat :=
  match x with
  | some v => some v
  | none => y

/-- Effect of one `updateOrderStatus` UPDATE on one row. -/
def recUpdate (now id : Nat) (status : String) (ssid : Option Nat)
    (errMsg : Option String) (r : OrderRecord) : OrderRecord :=
  if r.id = id then
    { r with
      status := status
      shipstation_order_id := coalesce ssid r.shipstation_order_id
      error_message := errMsg
      updated_at := now
      last_check_at := some now
      attempts := r.attempts + 1 }
  else r

/-- Embedding of `updateOrderStatus`: UPDATE orders SET status,
shipstation_order_id = COALESCE(?, shipstation_order_id), error_message,
updated_at, last_check_at, attempts = attempts + 1 WHERE id = ?. -/
def updateOrderStatus (db : List OrderRecord) (now id : Nat) (status : String)
    (ssid : Option Nat) (errMsg : Option String) : List OrderRecord :=
  db.map (recUpdate now id status ssid errMsg)

/-- Outcome of one remote REST call: a value, or an exception message. -/
inductive RemoteResult (α : Type) where
  | ok : α → RemoteResult α
  | err : String → RemoteResult α
  deriving Repr, DecidableEq

/-- Order summary returned by GET /orders (the worker only uses orderId). -/
structure SSOrder where
  orderId : Nat
  deriving Repr, DecidableEq

/-- Ship-to block of a full ShipStation order; country may be missing or
empty (JS falsy). -/
structure ShipTo where
  country : Option String
  deriving Repr, DecidableEq

/-- Reported weight; value may be missing (undefined/null), units may be
missing (JS weight.units || empty string). -/
structure Weight where
  value : Option ℚ
  units : Option String
  deriving Repr, DecidableEq

/-- Package dimensions as configured in PACKAGE_DIMENSIONS. -/
structure Dimensions where
  length : ℚ
  width : ℚ
  height : ℚ
  units : String
  deriving Repr, DecidableEq

/-- The fields of a full ShipStation order that the worker reads. -/
structure FullOrder where
  shipTo : Option ShipTo
  weight : Option Weight
  carrierCode : Option String
  serviceCode : Option String
  deriving Repr, DecidableEq

/-- A ShipStation workflow tag from GET /accounts/listtags. -/
structure SSTag where
  name : String
  tagId : Nat
  deriving Repr, DecidableEq

/-- Oracle for the five remote calls one processing attempt can make. -/
structure Env where
  ordersCall : RemoteResult (List SSOrder)
  getOrderCall : RemoteResult FullOrder
  createOrderCall : RemoteResult Unit
  listTagsCall : RemoteResult (List SSTag)
  addTagCall : RemoteResult Unit
  deriving Repr, DecidableEq

/-- Embedding of `findShipStationOrder`: the catch block swallows the
exception and returns null, and orders[0] || null is List.head?. -/
def findShipStationOrder (e : Env) : Option SSOrder :=
  match e.ordersCall with
  | RemoteResult.ok orders => orders.head?
  | RemoteResult.err _ => none

/-- WEIGHT_THRESHOLDS.small. -/
def thresholdSmall : ℚ := 15 / 10

/-- WEIGHT_THRESHOLDS.medium. -/
def thresholdMedium : ℚ := 25 / 10

/-- A selected package: its name and its PACKAGE_DIMENSIONS entry. -/
structure PackageChoice where
  name : String
  dims : Dimensions
  deriving Repr, DecidableEq

/-- PACKAGE_DIMENSIONS entry for the 2-inch box. -/
def packageSmall : PackageChoice :=
  { name := "BoxMaster 2\""
    dims := { length := 254 / 10, width := 1778 / 100, height := 5, units := "centimeters" } }

/-- PACKAGE_DIMENSIONS entry for the 3-inch box. -/
def packageMedium : PackageChoice :=
  { name := "BoxMaster 3\""
    dims := { length := 2794 / 100, width := 2095 / 100, height := 762 / 100, units := "centimeters" } }

/-- PACKAGE_DIMENSIONS entry for the 6-inch box. -/
def packageLarge : PackageChoice :=
  { name := "BoxMaster 6\""
    dims := { length := 2921 / 100, width := 2413 / 100, height := 1524 / 100, units := "centimeters" } }

/-- INTERNATIONAL_CARRIER configuration. -/
def internationalCarrierCode : String := "ups"

/-- INTERNATIONAL_CARRIER service code. -/
def internationalServiceCode : String := "ups_worldwide_expedited"

/-- Model of JS toUpperCase on the ASCII strings this code compares. -/
def jsToUpper (s : String) : String := String.mk (s.data.map Char.toUpper)

/-- Model of JS toLowerCase on the ASCII strings this code compares. -/
def jsToLower (s : String) : String := String.mk (s.data.map Char.toLower)

/-- Embedding of `isInternational`: false on a missing shipTo or a missing or
empty country, otherwise the uppercased country must differ from all five
domestic spellings. -/
def isInternational (shipTo : Option ShipTo) : Bool :=
  match shipTo with
  | none => false
  | some s =>
    match s.country with
    | none => false
    | some c =>
      if c = "" then false
      else
        let country := jsToUpper c
        country != "US" && country != "USA" && country != "CA" &&
          country != "CAN" && country != "CANADA"

/-- Embedding of `getWeightInKg`: 0 on a missing weight object or missing
value, otherwise a unit conversion keyed on the lowercased units string
(0.0283495 kg per ounce, 0.453592 kg per pound, grams / 1000, default kg). -/
def getWeightInKg (weight : Option Weight) : ℚ :=
  match weight with
  | none => 0
  | some w =>
    match w.value with
    | none => 0
    | some value =>
      let units := jsToLower (w.units.getD "")
      if units = "ounces" ∨ units = "oz" then value * (283495 / 10000000)
      else if units = "pounds" ∨ units = "lbs" ∨ units = "lb" then value * (453592 / 1000000)
      else if units = "grams" ∨ units = "g" then value / 1000
      else value

/-- Embedding of `selectPackageByWeight`: the three-way threshold split. -/
def selectPackageByWeight (weightInKg : ℚ) : PackageChoice :=
  if weightInKg < thresholdSmall then packageSmall
  else if weightInKg < thresholdMedium then packageMedium
  else packageLarge

/-- The body POSTed to /orders/createorder, restricted to the fields
`updateOrderDetails` writes. -/
structure UpdatedOrder where
  giftMessage : String
  dimensions : Option Dimensions
  carrierCode : Option String
  serviceCode : Option String
  deriving Repr, DecidableEq

/-- Pure core of `updateOrderDetails`: gift message set, dimensions from the
weight-selected package, and the carrier/service pair overridden exactly when
the order is international. -/
def buildUpdatedOrder (fullOrder : FullOrder) (giftMessage : String) : UpdatedOrder :=
  let weightInKg := getWeightInKg fullOrder.weight
  let selectedPackage := selectPackageByWeight weightInKg
  let base : UpdatedOrder :=
    { giftMessage := giftMessage
      dimensions := some selectedPackage.dims
      carrierCode := fullOrder.carrierCode
      serviceCode := fullOrder.serviceCode }
  if isInternational fullOrder.shipTo then
    { base with
      carrierCode := some internationalCarrierCode
      serviceCode := some internationalServiceCode }
  else base

/-- Embedding of `updateOrderDetails`: GET the full order (propagating its
exception), build the updated body, POST it (propagating its exception). -/
def updateOrderDetails (e : Env) (giftMessage : String) : Except String UpdatedOrder :=
  match e.getOrderCall with
  | RemoteResult.err m => Except.error m
  | RemoteResult.ok fullOrder =>
    match e.createOrderCall with
    | RemoteResult.err m => Except.error m
    | RemoteResult.ok _ => Except.ok (buildUpdatedOrder fullOrder giftMessage)

/-- Embedding of `getTagId`: the catch block swallows the exception and
returns null; otherwise the first tag whose lowercased name matches. -/
def getTagId (e : Env) (tagName : String) : Option Nat :=
  match e.listTagsCall with
  | RemoteResult.err _ => none
  | RemoteResult.ok tags =>
    match tags.find? (fun t => jsToLower t.name == jsToLower tagName) with
    | none => none
    | some t => some t.tagId

/-- What one processing attempt observes: downstream order missing, attempt
completed with the downstream id, or an exception reaching the catch block
of `processOrder`. -/
inductive AttemptResult where
  | notFound
  | completed (ssid : Nat)
  | raised (msg : String)
  deriving Repr, DecidableEq

/-- Control flow of the try block of `processOrder`: find (whose own
exceptions were already swallowed), then the note/package update (throws),
then tag resolution (swallows) and, only when a tag id resolved, the add-tag
call (throws). -/
def attemptResult (e : Env) (tagType note : String) : AttemptResult :=
  match findShipStationOrder e with
  | none => AttemptResult.notFound
  | some sso =>
    match updateOrderDetails e note with
    | Except.error m => AttemptResult.raised m
    | Except.ok _ =>
      match getTagId e tagType with
      | some _ =>
        (match e.addTagCall with
         | RemoteResult.err m => AttemptResult.raised m
         | RemoteResult.ok _ => AttemptResult.completed sso.orderId)
      | none => AttemptResult.completed sso.orderId

/-- Embedding of `processOrder`: not-found keeps the record pending with the
fixed message; success completes it with the downstream id and a cleared
error; an exception marks it failed when order.attempts >= 10 held before the
increment, else pending, storing the exception message. -/
def processOrder (e : Env) (now : Nat) (order : OrderRecord)
    (db : List OrderRecord) : List OrderRecord :=
  match attemptResult e order.tag_type order.formatted_note with
  | AttemptResult.notFound =>
    updateOrderStatus db now order.id "pending" none (some "Order not yet synced")
  | AttemptResult.completed ssid =>
    updateOrderStatus db now order.id "completed" (some ssid) none
  | AttemptResult.raised m =>
    if 10 ≤ order.attempts then
      updateOrderStatus db now order.id "failed" none (some m)
    else
      updateOrderStatus db now order.id "pending" none (some m)

/-- Embedding of one polling cycle of `processPendingOrders`: load up to 50
pending rows once, then process each snapshot row in order against the
evolving store. -/
def processPending (e : Env) (now : Nat) (db : List OrderRecord) : List OrderRecord :=
  (getPendingOrders db 50).foldl (fun d o => processOrder e now o d) db

/-! Concrete fixtures used by witnesses and counterexamples. -/

/-- A concrete order row with the given id, upstream id, attempt count and
status, all other columns fixed. -/
def sampleRec (i sid a : Nat) (st : String) : OrderRecord :=
  { id := i
    shopify_order_id := sid
    order_number := "1001"
    formatted_note := "note"
    tag_type := "charm"
    status := st
    shipstation_order_id := none
    created_at := 0
    updated_at := 0
    last_check_at := none
    attempts := a
    error_message := none }

/-- A concrete domestic full order. -/
def fullOrderSample : FullOrder :=
  { shipTo := some { country := some "US" }
    weight := none
    carrierCode := some "fedex"
    serviceCode := some "fedex_ground" }

/-- Environment whose find-by-number GET raises. -/
def envLookupErr (m : String) : Env :=
  { ordersCall := RemoteResult.err m
    getOrderCall := RemoteResult.ok fullOrderSample
    createOrderCall := RemoteResult.ok ()
    listTagsCall := RemoteResult.ok []
    addTagCall := RemoteResult.ok () }

/-- Environment where the order is found but the full-order GET raises. -/
def envUpdateErr (m : String) : Env :=
  { ordersCall := RemoteResult.ok [{ orderId := 500 }]
    getOrderCall := RemoteResult.err m
    createOrderCall := RemoteResult.ok ()
    listTagsCall := RemoteResult.ok []
    addTagCall := RemoteResult.ok () }

/-- Environment where the order is found, the update succeeds, and the
tag-list GET raises, so no tag id resolves. -/
def envTagMissing : Env :=
  { ordersCall := RemoteResult.ok [{ orderId := 77 }]
    getOrderCall := RemoteResult.ok fullOrderSample
    createOrderCall := RemoteResult.ok ()
    listTagsCall := RemoteResult.err "listtags 500"
    addTagCall := RemoteResult.ok () }

/-- Environment where the order is found, the update succeeds, a tag id
resolves, and the add-tag POST raises. -/
def envAddTagErr (m : String) : Env :=
  { ordersCall := RemoteResult.ok [{ orderId := 600 }]
    getOrderCall := RemoteResult.ok fullOrderSample
    createOrderCall := RemoteResult.ok ()
    listTagsCall := RemoteResult.ok [{ name := "charm", tagId := 5 }]
    addTagCall := RemoteResult.err m }

/-- Environment where GET /orders succeeds with an empty result list. -/
def envNotFound : Env :=
  { ordersCall := RemoteResult.ok []
    getOrderCall := RemoteResult.ok fullOrderSample
    createOrderCall := RemoteResult.ok ()
    listTagsCall := RemoteResult.ok []
    addTagCall := RemoteResult.ok () }

/-! Helper lemmas about the store operations. -/

theorem updateOrderStatus_getElem (db : List OrderRecord) (now id : Nat)
    (st : String) (ss : Option Nat) (er : Option String) (i : Nat) :
    (updateOrderStatus db now id st ss er)[i]? =
      (db[i]?).map (recUpdate now id st ss er) := by
  simp [updateOrderStatus]

/-! C6: the effect and frame of advance (updateOrderStatus). -/

/-- C6: on the row whose id matches, advance sets the status, COALESCEs the
downstream order id with the prior value, always overwrites the error
message (possibly with null), refreshes updated_at and last_check_at,
and increments the attempt counter by exactly one; the record-update form of
the conclusion leaves every other column (internal id, upstream order id,
order number, formatted note, tag, created timestamp) untouched. The two
trailing conjuncts state COALESCE itself: a provided id wins, a null id
keeps the prior value. -/
theorem advance_effect_and_frame (db : List OrderRecord) (now id : Nat)
    (st : String) (ss : Option Nat) (er : Option String) (i : Nat)
    (r : OrderRecord) (hr : db[i]? = some r) (hid : r.id = id) :
    (updateOrderStatus db now id st ss er)[i]? = some
      { r with
        status := st
        shipstation_order_id := coalesce ss r.shipstation_order_id
        error_message := er
        updated_at := now
        last_check_at := some now
        attempts := r.attempts + 1 } ∧
    (∀ v y, coalesce (some v) y = some v) ∧
    (∀ y, coalesce none y = y) := by
  refine ⟨?_, fun v y => rfl, fun y => rfl⟩
  simp [updateOrderStatus, hr, recUpdate, hid]

/-- Witness for C6 at a concrete store, with a provided downstream id. -/
theorem advance_effect_and_frame_w :
    (updateOrderStatus [sampleRec 1 101 4 "pending"] 5 1 "completed" (some 9) none)[0]? = some
      { sampleRec 1 101 4 "pending" with
        status := "completed"
        shipstation_order_id := coalesce (some 9) (sampleRec 1 101 4 "pending").shipstation_order_id
        error_message := none
        updated_at := 5
        last_check_at := some 5
        attempts := (sampleRec 1 101 4 "pending").attempts + 1 } ∧
    (∀ v y, coalesce (some v) y = some v) ∧
    (∀ y, coalesce none y = y) :=
  advance_effect_and_frame [sampleRec 1 101 4 "pending"] 5 1 "completed"
    (some 9) none 0 (sampleRec 1 101 4 "pending") rfl rfl

/-! C5: the not-found outcome. -/

/-- C5: when the downstream search returns an empty order list, the worker
advances the record to status pending with the fixed not-yet-synced message,
increments the attempt counter by one, refreshes the timestamps, and leaves
the downstream order id exactly as it was (in particular unset when it was
unset); no condition on the attempt counter is consulted. -/
theorem notFound_keeps_pending (e : Env) (now : Nat) (r : OrderRecord)
    (db : List OrderRecord) (i : Nat)
    (hfind : e.ordersCall = RemoteResult.ok [])
    (hr : db[i]? = some r) :
    (processOrder e now r db)[i]? = some
      { r with
        status := "pending"
        error_message := some "Order not yet synced"
        updated_at := now
        last_check_at := some now
        attempts := r.attempts + 1 } := by
  have hf : findShipStationOrder e = none := by
    simp [findShipStationOrder, hfind]
  simp [processOrder, attemptResult, hf, updateOrderStatus, hr, recUpdate, coalesce]

/-- Witness for C5 at a record already at 7 attempts. -/
theorem notFound_keeps_pending_w :
    (processOrder envNotFound 3 (sampleRec 2 102 7 "pending")
        [sampleRec 2 102 7 "pending"])[0]? = some
      { sampleRec 2 102 7 "pending" with
        status := "pending"
        error_message := some "Order not yet synced"
        updated_at := 3
        last_check_at := some 3
        attempts := (sampleRec 2 102 7 "pending").attempts + 1 } :=
  notFound_keeps_pending envNotFound 3 (sampleRec 2 102 7 "pending")
    [sampleRec 2 102 7 "pending"] 0 rfl rfl

/-! C8: unresolvable tag does not block completion. -/

/-- C8: when the order is found downstream, the note/package update succeeds,
and the tag name resolves to no downstream tag id (whether the tag list call
raised or simply contained no match), the record is still advanced to
completed with its downstream order id set and its error message cleared to
null. -/
theorem tag_skip_still_completed (e : Env) (now : Nat) (r : OrderRecord)
    (db : List OrderRecord) (i : Nat) (sso : SSOrder) (rest : List SSOrder)
    (u : UpdatedOrder)
    (hfind : e.ordersCall = RemoteResult.ok (sso :: rest))
    (hupd : updateOrderDetails e r.formatted_note = Except.ok u)
    (htag : getTagId e r.tag_type = none)
    (hr : db[i]? = some r) :
    (processOrder e now r db)[i]? = some
      { r with
        status := "completed"
        shipstation_order_id := some sso.orderId
        error_message := none
        updated_at := now
        last_check_at := some now
        attempts := r.attempts + 1 } := by
  have hf : findShipStationOrder e = some sso := by
    simp [findShipStationOrder, hfind]
  simp [processOrder, attemptResult, hf, hupd, htag, updateOrderStatus, hr,
    recUpdate, coalesce]

/-- Witness for C8: the tag-list call raises, yet the record completes with
the downstream id 77 and a cleared error. -/
theorem tag_skip_still_completed_w :
    (processOrder envTagMissing 4 (sampleRec 3 103 2 "pending")
        [sampleRec 3 103 2 "pending"])[0]? = some
      { sampleRec 3 103 2 "pending" with
        status := "completed"
        shipstation_order_id := some (77 : Nat)
        error_message := none
        updated_at := 4
        last_check_at := some 4
        attempts := (sampleRec 3 103 2 "pending").attempts + 1 } :=
  tag_skip_still_completed envTagMissing 4 (sampleRec 3 103 2 "pending")
    [sampleRec 3 103 2 "pending"] 0 { orderId := 77 } []
    (buildUpdatedOrder fullOrderSample (sampleRec 3 103 2 "pending").formatted_note)
    rfl rfl rfl rfl

/-! C1: the retry ceiling. -/

/-- C1 counterexample: a record whose attempt counter reaches 10 after the
increment performed by this failing attempt (pre-increment counter 9) is
advanced back to pending, not to failed — the exception branch does not
choose failed when the post-increment counter equals 10. -/
theorem retry_ceiling_cex :
    (processOrder (envUpdateErr "ShipStation 500") 7 (sampleRec 1 101 9 "pending")
        [sampleRec 1 101 9 "pending"]).map (fun r => (r.status, r.attempts)) =
      [("pending", 10)] := by
  rfl

/-- C1 amended: on an attempt whose try block raises, the worker marks the
record failed precisely when the attempt counter after the increment is at
least 11 (the code tests the pre-increment counter against 10), and advances
it back to pending on every earlier attempt; either way the exception message
is stored and the counter rises by exactly one. -/
theorem retry_ceiling_post_increment (e : Env) (now : Nat) (r : OrderRecord)
    (db : List OrderRecord) (i : Nat) (m : String)
    (hraise : attemptResult e r.tag_type r.formatted_note = AttemptResult.raised m)
    (hr : db[i]? = some r) :
    (processOrder e now r db)[i]? = some
      { r with
        status := if 11 ≤ r.attempts + 1 then "failed" else "pending"
        error_message := some m
        updated_at := now
        last_check_at := some now
        attempts := r.attempts + 1 } := by
  by_cases h : 10 ≤ r.attempts
  · have h11 : 11 ≤ r.attempts + 1 := Nat.succ_le_succ h
    simp [processOrder, hraise, h, h11, updateOrderStatus, hr, recUpdate, coalesce]
  · have h11 : ¬ 11 ≤ r.attempts + 1 := fun hc => h (Nat.le_of_succ_le_succ hc)
    simp [processOrder, hraise, h, h11, updateOrderStatus, hr, recUpdate, coalesce]

/-- Witness for amended C1: pre-increment counter 10, post-increment 11, and
the record is marked failed. -/
theorem retry_ceiling_post_increment_w :
    (processOrder (envUpdateErr "http 500") 9 (sampleRec 4 104 10 "pending")
        [sampleRec 4 104 10 "pending"])[0]? = some
      { sampleRec 4 104 10 "pending" with
        status := if 11 ≤ (sampleRec 4 104 10 "pending").attempts + 1 then "failed" else "pending"
        error_message := some "http 500"
        updated_at := 9
        last_check_at := some 9
        attempts := (sampleRec 4 104 10 "pending").attempts + 1 } :=
  retry_ceiling_post_increment (envUpdateErr "http 500") 9
    (sampleRec 4 104 10 "pending") [sampleRec 4 104 10 "pending"] 0 "http 500" rfl rfl

/-! C2: where remote-call exceptions are handled. -/

/-- C2 counterexample: a record far beyond the attempt ceiling whose
find-by-number lookup raises a network error is advanced to pending with the
fixed not-yet-synced message — not to failed, and not with the exception
message — because the lookup catches its own exception and returns null. -/
theorem lookup_exception_cex :
    (processOrder (envLookupErr "getaddrinfo ENOTFOUND") 3 (sampleRec 5 105 42 "pending")
        [sampleRec 5 105 42 "pending"]).map
        (fun r => (r.status, r.error_message, r.attempts)) =
      [("pending", some "Order not yet synced", 43)] := by
  rfl

/-- C2 amended: an exception raised during the downstream update steps (the
full-order fetch, the note/package POST, or the add-tag call once a tag id
resolved) follows the retry-then-fail policy, storing the exception message
and choosing failed exactly when the post-increment counter is at least 11;
but an exception raised by the find-by-number lookup is swallowed inside the
lookup and treated as order-not-found: at every attempt count the record is
advanced to pending with the fixed message Order not yet synced, so a record
whose lookup raises on every attempt never becomes failed. -/
theorem remote_exception_policy :
    (∀ (e : Env) (now : Nat) (r : OrderRecord) (db : List OrderRecord)
        (i : Nat) (m : String),
      e.ordersCall = RemoteResult.err m → db[i]? = some r →
        (processOrder e now r db)[i]? = some
          { r with
            status := "pending"
            error_message := some "Order not yet synced"
            updated_at := now
            last_check_at := some now
            attempts := r.attempts + 1 }) ∧
    (∀ (e : Env) (now : Nat) (r : OrderRecord) (db : List OrderRecord)
        (i : Nat) (sso : SSOrder) (rest : List SSOrder) (m : String),
      e.ordersCall = RemoteResult.ok (sso :: rest) →
      updateOrderDetails e r.formatted_note = Except.error m →
      db[i]? = some r →
        (processOrder e now r db)[i]? = some
          { r with
            status := if 11 ≤ r.attempts + 1 then "failed" else "pending"
            error_message := some m
            updated_at := now
            last_check_at := some now
            attempts := r.attempts + 1 }) ∧
    (∀ (e : Env) (now : Nat) (r : OrderRecord) (db : List OrderRecord)
        (i : Nat) (sso : SSOrder) (rest : List SSOrder) (u : UpdatedOrder)
        (tid : Nat) (m : String),
      e.ordersCall = RemoteResult.ok (sso :: rest) →
      updateOrderDetails e r.formatted_note = Except.ok u →
      getTagId e r.tag_type = some tid →
      e.addTagCall = RemoteResult.err m →
      db[i]? = some r →
        (processOrder e now r db)[i]? = some
          { r with
            status := if 11 ≤ r.attempts + 1 then "failed" else "pending"
            error_message := some m
            updated_at := now
            last_check_at := some now
            attempts := r.attempts + 1 }) := by
  refine ⟨?_, ?_, ?_⟩
  · intro e now r db i m hfind hr
    have hf : findShipStationOrder e = none := by
      simp [findShipStationOrder, hfind]
    simp [processOrder, attemptResult, hf, updateOrderStatus, hr, recUpdate, coalesce]
  · intro e now r db i sso rest m hfind hupd hr
    have hf : findShipStationOrder e = some sso := by
      simp [findShipStationOrder, hfind]
    by_cases h : 10 ≤ r.attempts
    · have h11 : 11 ≤ r.attempts + 1 := Nat.succ_le_succ h
      simp [processOrder, attemptResult, hf, hupd, h, h11, updateOrderStatus,
        hr, recUpdate, coalesce]
    · have h11 : ¬ 11 ≤ r.attempts + 1 := fun hc => h (Nat.le_of_succ_le_succ hc)
      simp [processOrder, attemptResult, hf, hupd, h, h11, updateOrderStatus,
        hr, recUpdate, coalesce]
  · intro e now r db i sso rest u tid m hfind hupd htag haddtag hr
    have hf : findShipStationOrder e = some sso := by
      simp [findShipStationOrder, hfind]
    by_cases h : 10 ≤ r.attempts
    · have h11 : 11 ≤ r.attempts + 1 := Nat.succ_le_succ h
      simp [processOrder, attemptResult, hf, hupd, htag, haddtag, h, h11,
        updateOrderStatus, hr, recUpdate, coalesce]
    · have h11 : ¬ 11 ≤ r.attempts + 1 := fun hc => h (Nat.le_of_succ_le_succ hc)
      simp [processOrder, attemptResult, hf, hupd, htag, haddtag, h, h11,
        updateOrderStatus, hr, recUpdate, coalesce]

/-- Witness for amended C2: a lookup exception at attempt count 30 (far past
the ceiling) keeps the record pending; an update-step exception at
pre-increment count 12 marks it failed; and an add-tag exception after a
resolved tag id at pre-increment count 3 retries as pending with the
exception message stored. -/
theorem remote_exception_policy_w :
    (processOrder (envLookupErr "ETIMEDOUT") 6 (sampleRec 6 106 30 "pending")
        [sampleRec 6 106 30 "pending"])[0]? = some
      { sampleRec 6 106 30 "pending" with
        status := "pending"
        error_message := some "Order not yet synced"
        updated_at := 6
        last_check_at := some 6
        attempts := (sampleRec 6 106 30 "pending").attempts + 1 } ∧
    (processOrder (envUpdateErr "socket hang up") 8 (sampleRec 7 107 12 "pending")
        [sampleRec 7 107 12 "pending"])[0]? = some
      { sampleRec 7 107 12 "pending" with
        status := if 11 ≤ (sampleRec 7 107 12 "pending").attempts + 1
          then "failed" else "pending"
        error_message := some "socket hang up"
        updated_at := 8
        last_check_at := some 8
        attempts := (sampleRec 7 107 12 "pending").attempts + 1 } ∧
    (processOrder (envAddTagErr "addtag 500") 11 (sampleRec 8 108 3 "pending")
        [sampleRec 8 108 3 "pending"])[0]? = some
      { sampleRec 8 108 3 "pending" with
        status := if 11 ≤ (sampleRec 8 108 3 "pending").attempts + 1
          then "failed" else "pending"
        error_message := some "addtag 500"
        updated_at := 11
        last_check_at := some 11
        attempts := (sampleRec 8 108 3 "pending").attempts + 1 } :=
  ⟨remote_exception_policy.1 (envLookupErr "ETIMEDOUT") 6
      (sampleRec 6 106 30 "pending") [sampleRec 6 106 30 "pending"] 0
      "ETIMEDOUT" rfl rfl,
    remote_exception_policy.2.1 (envUpdateErr "socket hang up") 8
      (sampleRec 7 107 12 "pending") [sampleRec 7 107 12 "pending"] 0
      { orderId := 500 } [] "socket hang up" rfl rfl rfl,
    remote_exception_policy.2.2 (envAddTagErr "addtag 500") 11
      (sampleRec 8 108 3 "pending") [sampleRec 8 108 3 "pending"] 0
      { orderId := 600 } []
      (buildUpdatedOrder fullOrderSample (sampleRec 8 108 3 "pending").formatted_note)
      5 "addtag 500" rfl rfl rfl rfl rfl⟩

/-! C3: idempotent upsert. -/

/-- C3: starting from a store with no row for the upstream id, two upserts
with that id leave exactly one row for it; that row carries the note, tag and
updated_at of the second call while keeping the internal id, creation time,
pending status and order number of the first insert; and the store grows by
exactly one row overall, so the second call creates no duplicate. -/
theorem upsert_idempotent (db : List OrderRecord) (id1 id2 now1 now2 sid : Nat)
    (onum1 onum2 note1 note2 tag1 tag2 : String)
    (hfree : ∀ r ∈ db, r.shopify_order_id ≠ sid) :
    ((addOrder (addOrder db id1 now1 sid onum1 note1 tag1) id2 now2 sid
        onum2 note2 tag2).filter (fun r => r.shopify_order_id == sid)).length = 1 ∧
    (∀ r ∈ addOrder (addOrder db id1 now1 sid onum1 note1 tag1) id2 now2 sid
        onum2 note2 tag2,
      r.shopify_order_id = sid →
        r.formatted_note = note2 ∧ r.tag_type = tag2 ∧ r.updated_at = now2 ∧
        r.id = id1 ∧ r.created_at = now1 ∧ r.status = "pending" ∧
        r.order_number = onum1) ∧
    (addOrder (addOrder db id1 now1 sid onum1 note1 tag1) id2 now2 sid
        onum2 note2 tag2).length = db.length + 1 := by
  have hany : db.any (fun r => r.shopify_order_id == sid) = false := by
    rw [List.any_eq_false]
    intro x hx
    simpa using hfree x hx
  have h1 : addOrder db id1 now1 sid onum1 note1 tag1
      = db ++ [newRecord id1 now1 sid onum1 note1 tag1] := by
    simp [addOrder, hany]
  have hany2 : (db ++ [newRecord id1 now1 sid onum1 note1 tag1]).any
      (fun r => r.shopify_order_id == sid) = true := by
    simp [newRecord]
  have h2 : addOrder (db ++ [newRecord id1 now1 sid onum1 note1 tag1]) id2
        now2 sid onum2 note2 tag2
      = (db ++ [newRecord id1 now1 sid onum1 note1 tag1]).map
          (fun r => if r.shopify_order_id == sid then
            { r with formatted_note := note2, tag_type := tag2, updated_at := now2 }
          else r) := by
    simp [addOrder, hany2]
  have hcomp : ((fun x : OrderRecord => x.shopify_order_id == sid) ∘
      (fun r => if r.shopify_order_id == sid then
        { r with formatted_note := note2, tag_type := tag2, updated_at := now2 }
      else r)) = fun x : OrderRecord => x.shopify_order_id == sid := by
    funext r
    by_cases h : r.shopify_order_id = sid <;> simp [h]
  rw [h1, h2]
  refine ⟨?_, ?_, ?_⟩
  · rw [List.filter_map, hcomp]
    have hnil : db.filter (fun r => r.shopify_order_id == sid) = [] := by
      rw [List.filter_eq_nil_iff]
      intro x hx
      simpa using hfree x hx
    simp [List.filter_append, hnil, newRecord]
  · intro r hr hsid
    obtain ⟨x, hx, hxr⟩ := List.mem_map.mp hr
    rcases List.mem_append.mp hx with hxd | hxn
    · have hne : x.shopify_order_id ≠ sid := hfree x hxd
      rw [if_neg (by simpa using hne)] at hxr
      exact absurd (hxr ▸ hsid) hne
    · have hx1 : x = newRecord id1 now1 sid onum1 note1 tag1 := by
        simpa using hxn
      subst hx1
      rw [if_pos (by simp [newRecord])] at hxr
      subst hxr
      simp [newRecord]
  · simp

/-- Witness for C3 at an empty store with two concrete notes. -/
theorem upsert_idempotent_w :
    ((addOrder (addOrder [] 1 10 1001 "1001" "noteA" "charm") 2 20 1001
        "1001" "noteB" "customization").filter
        (fun r => r.shopify_order_id == 1001)).length = 1 ∧
    (∀ r ∈ addOrder (addOrder [] 1 10 1001 "1001" "noteA" "charm") 2 20 1001
        "1001" "noteB" "customization",
      r.shopify_order_id = 1001 →
        r.formatted_note = "noteB" ∧ r.tag_type = "customization" ∧
        r.updated_at = 20 ∧ r.id = 1 ∧ r.created_at = 10 ∧
        r.status = "pending" ∧ r.order_number = "1001") ∧
    (addOrder (addOrder [] 1 10 1001 "1001" "noteA" "charm") 2 20 1001
        "1001" "noteB" "customization").length =
      List.length ([] : List OrderRecord) + 1 :=
  upsert_idempotent [] 1 2 10 20 1001 "1001" "1001" "noteA" "noteB" "charm"
    "customization" (by simp)

/-! C7: shape of the listPending result. -/

/-- C7 counterexample: two distinct pending rows sharing a creation time are
both returned by getPendingOrders, so the result is not strictly ascending in
creation time — consecutive returned rows may have equal timestamps. -/
theorem listPending_not_strict :
    List.Sorted (fun a b : OrderRecord => a.created_at < b.created_at)
      (getPendingOrders [sampleRec 1 201 0 "pending", sampleRec 2 202 0 "pending"] 10)
      = False := by
  have hev : getPendingOrders
        [sampleRec 1 201 0 "pending", sampleRec 2 202 0 "pending"] 10
      = [sampleRec 1 201 0 "pending", sampleRec 2 202 0 "pending"] := by rfl
  rw [hev]
  apply eq_false
  intro hs
  have hlt := List.rel_of_sorted_cons hs (sampleRec 2 202 0 "pending") (by simp)
  simp [sampleRec] at hlt

/-- C7 amended: getPendingOrders returns only rows with status pending, at
most limit of them, in non-decreasing (ascending, ties permitted) creation
time order. -/
theorem listPending_spec (db : List OrderRecord) (limit : Nat) :
    (∀ r ∈ getPendingOrders db limit, r.status = "pending") ∧
    (getPendingOrders db limit).length ≤ limit ∧
    List.Sorted createdLe (getPendingOrders db limit) := by
  unfold getPendingOrders
  refine ⟨?_, ?_, ?_⟩
  · intro r hr
    have h1 : r ∈ db.filter (fun q => q.status == "pending") := by
      simpa using List.mem_of_mem_take hr
    simpa using (List.mem_filter.mp h1).2
  · exact List.length_take_le limit _
  · exact List.Pairwise.sublist (List.take_sublist _ _)
      (List.sorted_insertionSort createdLe _)

/-- Witness for amended C7 at a concrete two-row store. -/
theorem listPending_spec_w :
    (sampleRec 1 201 0 "pending").status = "pending" ∧
    (getPendingOrders [sampleRec 1 201 0 "pending", sampleRec 2 202 3 "pending"] 5).length ≤ 5 ∧
    List.Sorted createdLe
      (getPendingOrders [sampleRec 1 201 0 "pending", sampleRec 2 202 3 "pending"] 5) :=
  ⟨(listPending_spec [sampleRec 1 201 0 "pending", sampleRec 2 202 3 "pending"] 5).1
      (sampleRec 1 201 0 "pending") (by decide),
    (listPending_spec [sampleRec 1 201 0 "pending", sampleRec 2 202 3 "pending"] 5).2.1,
    (listPending_spec [sampleRec 1 201 0 "pending", sampleRec 2 202 3 "pending"] 5).2.2⟩

/-! C4: terminal stability. Helper lemmas first: one worker pass is a map
over the store, and rows whose id matches no processed snapshot row are
fixed points of that map. -/

/-- Per-row effect of processing one snapshot row o. -/
def stepFn (e : Env) (now : Nat) (o : OrderRecord) : OrderRecord → OrderRecord :=
  fun r =>
    match attemptResult e o.tag_type o.formatted_note with
    | AttemptResult.notFound =>
      recUpdate now o.id "pending" none (some "Order not yet synced") r
    | AttemptResult.completed ssid =>
      recUpdate now o.id "completed" (some ssid) none r
    | AttemptResult.raised m =>
      if 10 ≤ o.attempts then recUpdate now o.id "failed" none (some m) r
      else recUpdate now o.id "pending" none (some m) r

theorem processOrder_eq_map (e : Env) (now : Nat) (o : OrderRecord)
    (db : List OrderRecord) :
    processOrder e now o db = db.map (stepFn e now o) := by
  unfold processOrder stepFn updateOrderStatus
  cases h : attemptResult e o.tag_type o.formatted_note
  · simp [h]
  · simp [h]
  · by_cases hc : 10 ≤ o.attempts <;> simp [h, hc]

theorem stepFn_fix (e : Env) (now : Nat) (o r : OrderRecord)
    (hne : r.id ≠ o.id) : stepFn e now o r = r := by
  unfold stepFn recUpdate
  cases attemptResult e o.tag_type o.formatted_note
  · simp [hne]
  · simp [hne]
  · split <;> simp [hne]

theorem foldl_processOrder (e : Env) (now : Nat) :
    ∀ (l db : List OrderRecord),
      l.foldl (fun d o => processOrder e now o d) db
        = db.map (fun r => l.foldl (fun x o => stepFn e now o x) r) := by
  intro l
  induction l with
  | nil => intro db; simp
  | cons o t ih =>
    intro db
    simp only [List.foldl_cons]
    rw [processOrder_eq_map, ih, List.map_map]
    simp [Function.comp]

theorem id_inj_of_pairwise {db : List OrderRecord}
    (h : db.Pairwise (fun a b => a.id ≠ b.id)) :
    ∀ a ∈ db, ∀ b ∈ db, a.id = b.id → a = b := by
  induction db with
  | nil => simp
  | cons x t ih =>
    intro a ha b hb heq
    rcases List.mem_cons.mp ha with rfl | ha₁ <;>
      rcases List.mem_cons.mp hb with rfl | hb₁
    · rfl
    · exact absurd heq ((List.pairwise_cons.mp h).1 b hb₁)
    · exact absurd heq.symm ((List.pairwise_cons.mp h).1 a ha₁)
    · exact ih (List.pairwise_cons.mp h).2 a ha₁ b hb₁ heq

/-- C4: a row whose status is completed or failed is excluded from every
getPendingOrders selection, and a full polling cycle (processPending) leaves
it, at its position, exactly as it was — terminal rows are never mutated by
the worker. Row ids are pairwise distinct, as the id column is the table's
primary key. -/
theorem terminal_records_stable (e : Env) (now : Nat) (db : List OrderRecord)
    (r : OrderRecord)
    (huniq : db.Pairwise (fun a b => a.id ≠ b.id))
    (hmem : r ∈ db)
    (hterm : r.status = "completed" ∨ r.status = "failed") :
    (∀ k, r ∉ getPendingOrders db k) ∧
    (∀ i : Nat, db[i]? = some r → (processPending e now db)[i]? = some r) := by
  have hrp : ¬ r.status = "pending" := by
    rcases hterm with h | h <;> simp [h]
  have hnotpend : ∀ k, r ∉ getPendingOrders db k := by
    intro k hk
    have h1 : r ∈ db.filter (fun q => q.status == "pending") := by
      simpa using List.mem_of_mem_take hk
    exact hrp (by simpa using (List.mem_filter.mp h1).2)
  refine ⟨hnotpend, ?_⟩
  intro i hi
  unfold processPending
  rw [foldl_processOrder, List.getElem?_map, hi]
  have hfix : ∀ l : List OrderRecord, (∀ o ∈ l, o.id ≠ r.id) →
      l.foldl (fun x o => stepFn e now o x) r = r := by
    intro l
    induction l with
    | nil => intro _; rfl
    | cons o t ih =>
      intro h
      simp only [List.foldl_cons]
      rw [stepFn_fix e now o r (fun hc => (h o (by simp)) hc.symm)]
      exact ih (fun q hq => h q (by simp [hq]))
  have hids : ∀ o ∈ getPendingOrders db 50, o.id ≠ r.id := by
    intro o ho hoe
    have hof : o ∈ db.filter (fun q => q.status == "pending") := by
      simpa using List.mem_of_mem_take ho
    have hod : o ∈ db := (List.mem_filter.mp hof).1
    have hop : o.status = "pending" := by
      simpa using (List.mem_filter.mp hof).2
    exact hrp ((id_inj_of_pairwise huniq o hod r hmem hoe) ▸ hop)
  simp only [Option.map_some']
  rw [hfix _ hids]

/-- Witness for C4 at a store holding one completed row. -/
theorem terminal_records_stable_w :
    (∀ k, sampleRec 9 109 3 "completed" ∉
      getPendingOrders [sampleRec 9 109 3 "completed"] k) ∧
    (∀ i : Nat, ([sampleRec 9 109 3 "completed"])[i]? = some (sampleRec 9 109 3 "completed") →
      (processPending envNotFound 0 [sampleRec 9 109 3 "completed"])[i]? =
        some (sampleRec 9 109 3 "completed")) :=
  terminal_records_stable envNotFound 0 [sampleRec 9 109 3 "completed"]
    (sampleRec 9 109 3 "completed") (by simp) (by simp) (Or.inl rfl)

/-! C9: package tiers and the international carrier override. -/

/-- C9: the update body is a deterministic function of the converted weight
and the destination country: weight below 1.5 kg selects the small box,
weight in [1.5, 2.5) the mid box, weight at or above 2.5 the large box; a
present, non-empty country whose uppercased value is outside the five
domestic spellings makes the order international, which overrides the
carrier/service pair to ups / ups_worldwide_expedited, while a domestic
order keeps the carrier and service of the fetched order. -/
theorem package_and_carrier_selection :
    (∀ (fo : FullOrder) (msg : String),
      getWeightInKg fo.weight < thresholdSmall →
        (buildUpdatedOrder fo msg).dimensions = some packageSmall.dims) ∧
    (∀ (fo : FullOrder) (msg : String),
      thresholdSmall ≤ getWeightInKg fo.weight →
      getWeightInKg fo.weight < thresholdMedium →
        (buildUpdatedOrder fo msg).dimensions = some packageMedium.dims) ∧
    (∀ (fo : FullOrder) (msg : String),
      thresholdMedium ≤ getWeightInKg fo.weight →
        (buildUpdatedOrder fo msg).dimensions = some packageLarge.dims) ∧
    (∀ c : String, ¬ c = "" →
      (isInternational (some { country := some c }) = true ↔
        ¬ jsToUpper c ∈ (["US", "USA", "CA", "CAN", "CANADA"] : List String))) ∧
    (∀ (fo : FullOrder) (msg : String), isInternational fo.shipTo = true →
      (buildUpdatedOrder fo msg).carrierCode = some internationalCarrierCode ∧
      (buildUpdatedOrder fo msg).serviceCode = some internationalServiceCode) ∧
    (∀ (fo : FullOrder) (msg : String), isInternational fo.shipTo = false →
      (buildUpdatedOrder fo msg).carrierCode = fo.carrierCode ∧
      (buildUpdatedOrder fo msg).serviceCode = fo.serviceCode) := by
  have hsm : thresholdSmall ≤ thresholdMedium := by
    norm_num [thresholdSmall, thresholdMedium]
  refine ⟨?_, ?_, ?_, ?_, ?_, ?_⟩
  · intro fo msg h
    by_cases hi : isInternational fo.shipTo <;>
      simp [buildUpdatedOrder, selectPackageByWeight, hi, h]
  · intro fo msg h1 h2
    by_cases hi : isInternational fo.shipTo <;>
      simp [buildUpdatedOrder, selectPackageByWeight, hi, not_lt.mpr h1, h2]
  · intro fo msg h
    have hns : ¬ getWeightInKg fo.weight < thresholdSmall :=
      not_lt.mpr (le_trans hsm h)
    by_cases hi : isInternational fo.shipTo <;>
      simp [buildUpdatedOrder, selectPackageByWeight, hi, hns, not_lt.mpr h]
  · intro c hc
    simp only [isInternational, hc, if_false, ite_false, Bool.and_eq_true,
      bne_iff_ne, ne_eq, List.mem_cons, List.mem_singleton, not_or,
      List.not_mem_nil, not_false_iff, and_true]
    tauto
  · intro fo msg hi
    simp [buildUpdatedOrder, hi]
  · intro fo msg hi
    simp [buildUpdatedOrder, hi]

/-- Witness for C9: a 1 kg French order gets the small box and the ups
override; a 2 kg order the mid box; a 3 kg order the large box; France is
international, the United States is not. -/
theorem package_and_carrier_selection_w :
    (buildUpdatedOrder
        { shipTo := some { country := some "France" }
          weight := some { value := some 1, units := some "kg" }
          carrierCode := some "stamps_com", serviceCode := some "usps_first" }
        "m").dimensions = some packageSmall.dims ∧
    (buildUpdatedOrder
        { shipTo := some { country := some "France" }
          weight := some { value := some 2, units := some "kg" }
          carrierCode := some "stamps_com", serviceCode := some "usps_first" }
        "m").dimensions = some packageMedium.dims ∧
    (buildUpdatedOrder
        { shipTo := some { country := some "France" }
          weight := some { value := some 3, units := some "kg" }
          carrierCode := some "stamps_com", serviceCode := some "usps_first" }
        "m").dimensions = some packageLarge.dims ∧
    (isInternational (some { country := some "France" }) = true ↔
      ¬ jsToUpper "France" ∈ (["US", "USA", "CA", "CAN", "CANADA"] : List String)) ∧
    (buildUpdatedOrder
        { shipTo := some { country := some "France" }
          weight := some { value := some 1, units := some "kg" }
          carrierCode := some "stamps_com", serviceCode := some "usps_first" }
        "m").carrierCode = some internationalCarrierCode ∧
    (buildUpdatedOrder fullOrderSample "m").carrierCode = fullOrderSample.carrierCode := by
  refine ⟨?_, ?_, ?_, ?_, ?_, ?_⟩
  · refine package_and_carrier_selection.1 _ "m" ?_
    show (1 : ℚ) < thresholdSmall
    norm_num [thresholdSmall]
  · refine package_and_carrier_selection.2.1 _ "m" ?_ ?_
    · show thresholdSmall ≤ (2 : ℚ)
      norm_num [thresholdSmall]
    · show (2 : ℚ) < thresholdMedium
      norm_num [thresholdMedium]
  · refine package_and_carrier_selection.2.2.1 _ "m" ?_
    show thresholdMedium ≤ (3 : ℚ)
    norm_num [thresholdMedium]
  · exact package_and_carrier_selection.2.2.2.1 "France" (by decide)
  · exact (package_and_carrier_selection.2.2.2.2.1 _ "m" (by decide)).1
  · exact (package_and_carrier_selection.2.2.2.2.2 fullOrderSample "m" (by decide)).1

/-! C10: defaults on missing address and weight data. -/

/-- C10: a missing shipTo, a missing country, or an empty country makes
isInternational false (so no carrier override is applied), and a missing
weight object or missing weight value converts to 0 kg, which always selects
the small box. -/
theorem missing_fields_default_domestic_small :
    isInternational none = false ∧
    (∀ s : ShipTo, s.country = none → isInternational (some s) = false) ∧
    (∀ s : ShipTo, s.country = some "" → isInternational (some s) = false) ∧
    getWeightInKg none = 0 ∧
    (∀ w : Weight, w.value = none → getWeightInKg (some w) = 0) ∧
    selectPackageByWeight (getWeightInKg none) = packageSmall ∧
    (∀ w : Weight, w.value = none →
      selectPackageByWeight (getWeightInKg (some w)) = packageSmall) ∧
    (∀ fo : FullOrder, fo.shipTo = none → ∀ msg : String,
      (buildUpdatedOrder fo msg).carrierCode = fo.carrierCode ∧
      (buildUpdatedOrder fo msg).serviceCode = fo.serviceCode) := by
  have hzero : selectPackageByWeight 0 = packageSmall := by
    norm_num [selectPackageByWeight, thresholdSmall]
  refine ⟨rfl, ?_, ?_, rfl, ?_, ?_, ?_, ?_⟩
  · intro s h
    simp [isInternational, h]
  · intro s h
    simp [isInternational, h]
  · intro w h
    simp [getWeightInKg, h]
  · simpa [getWeightInKg] using hzero
  · intro w h
    simpa [getWeightInKg, h] using hzero
  · intro fo h msg
    simp [buildUpdatedOrder, isInternational, h]

/-- Witness for C10 at concrete missing-field values. -/
theorem missing_fields_default_domestic_small_w :
    isInternational (some { country := none }) = false ∧
    isInternational (some { country := some "" }) = false ∧
    getWeightInKg (some { value := none, units := some "kg" }) = 0 ∧
    selectPackageByWeight
      (getWeightInKg (some { value := none, units := some "kg" })) = packageSmall ∧
    (buildUpdatedOrder
        { shipTo := none, weight := none
          carrierCode := some "fedex", serviceCode := some "fedex_ground" }
        "m").carrierCode = some "fedex" :=
  ⟨missing_fields_default_domestic_small.2.1 { country := none } rfl,
    missing_fields_default_domestic_small.2.2.1 { country := some "" } rfl,
    missing_fields_default_domestic_small.2.2.2.2.1
      { value := none, units := some "kg" } rfl,
    missing_fields_default_domestic_small.2.2.2.2.2.2.1
      { value := none, units := some "kg" } rfl,
    (missing_fields_default_domestic_small.2.2.2.2.2.2.2
      { shipTo := none, weight := none
        carrierCode := some "fedex", serviceCode := some "fedex_ground" }
      rfl "m").1⟩

end WebhookQueue
